import Mathlib

/-!
Shallow embedding of the BatteryHub dashboard's time-windowed data view:
timestamp parsing, date and time-of-day range filtering, display labelling
and the scroll/zoom window, translated from
src/components/dashboard/RawBatteryChart.tsx,
src/components/dashboard/BatteryChart.tsx (which contains two chart
variants) and the BatteryData record type.
-/

namespace BatteryHub

/-- Calendar date-time with millisecond precision, modelling a JS `Date`
value in a fixed timezone (the dashboard never crosses timezones).
An *invalid* JS date is modelled as `none` at use sites. -/
structure DateTime where
  year : Int
  month : Nat
  day : Nat
  hour : Nat
  minute : Nat
  second : Nat
  millis : Nat
deriving DecidableEq

/-- Gregorian leap-year test. -/
def isLeap (y : Int) : Bool :=
  decide (Int.emod y 4 = 0 ∧ (¬ Int.emod y 100 = 0 ∨ Int.emod y 400 = 0))

/-- Number of days of a month in the Gregorian calendar. -/
def daysInMonth (y : Int) (m : Nat) : Nat :=
  if m = 2 then (if isLeap y then 29 else 28)
  else if m = 4 ∨ m = 6 ∨ m = 9 ∨ m = 11 then 30
  else 31

/-- Days since 1970-01-01 of a proleptic-Gregorian civil date
(the standard era-based civil-calendar algorithm). -/
def civilDays (y : Int) (m d : Nat) : Int :=
  let yy : Int := if m ≤ 2 then y - 1 else y
  let era : Int := Int.fdiv yy 400
  let yoe : Int := yy - era * 400
  let mp : Int := if m ≤ 2 then (m : Int) + 9 else (m : Int) - 3
  let doy : Int := Int.fdiv (153 * mp + 2) 5 + (d : Int) - 1
  let doe : Int := yoe * 365 + Int.fdiv yoe 4 - Int.fdiv yoe 100 + doy
  era * 146097 + doe - 719468

/-- Milliseconds since the epoch: the JS `Date.getTime` value of a valid
date in a fixed timezone. -/
def toMillis (dt : DateTime) : Int :=
  civilDays dt.year dt.month dt.day * 86400000
    + (dt.hour : Int) * 3600000 + (dt.minute : Int) * 60000
    + (dt.second : Int) * 1000 + (dt.millis : Int)

/-- date-fns `startOfDay`: same day at 00:00:00.000. -/
def startOfDay (d : DateTime) : DateTime :=
  { d with hour := 0, minute := 0, second := 0, millis := 0 }

/-- date-fns `endOfDay`: same day at 23:59:59.999. -/
def endOfDay (d : DateTime) : DateTime :=
  { d with hour := 23, minute := 59, second := 59, millis := 999 }

/-- date-fns `isWithinInterval` as used by the charts.  date-fns throws a
RangeError when the interval is inverted (start after end) or any date is
invalid; every call site wraps the call in try/catch and returns `false`,
so the thrown case is modelled as `false`. -/
def isWithinIntervalB (t s e : DateTime) : Bool :=
  decide (toMillis s ≤ toMillis e ∧ toMillis s ≤ toMillis t ∧ toMillis t ≤ toMillis e)

/-- date-fns `differenceInDays`: the count of full days between two
instants.  In a fixed timezone this is the floor quotient of the
millisecond difference; the chart only calls it with the later instant
first, where floor and JS truncation agree. -/
def differenceInDays (l r : DateTime) : Int :=
  Int.fdiv (toMillis l - toMillis r) 86400000

/-- JS `String.prototype.split` with a single-character separator
(the code only splits on a space, a colon, a dash and the letter T),
acting on the character list. -/
def splitChar (sep : Char) : List Char → List (List Char)
  | [] => [[]]
  | c :: cs =>
    match splitChar sep cs with
    | [] => [[]]
    | h :: t => if c = sep then [] :: h :: t else (c :: h) :: t

/-- JS `String.prototype.split` with a single-character separator. -/
def jsSplit (s : String) (sep : Char) : List String :=
  (splitChar sep s.data).map (fun l => String.mk l)

/-- Whether the string has exactly `n` characters, all decimal digits. -/
def digitsLen (s : String) (n : Nat) : Bool :=
  decide (s.data.length = n) && s.data.all Char.isDigit

/-- Numeric value of a digit string. -/
def natOfDigits (s : String) : Nat :=
  s.data.foldl (fun a c => a * 10 + (c.toNat - 48)) 0

/-- Range-checked date-time construction from the components of an ISO
string, as the ECMAScript date-time string format does (out-of-range
components give an invalid date). -/
def mkDateTime (ys ms ds hs mins ss : String) : Option DateTime :=
  if digitsLen ys 4 ∧ digitsLen ms 2 ∧ digitsLen ds 2 ∧ digitsLen hs 2
      ∧ digitsLen mins 2 ∧ digitsLen ss 2 then
    let y : Int := (natOfDigits ys : Int)
    let mo := natOfDigits ms
    let d := natOfDigits ds
    let h := natOfDigits hs
    let mi := natOfDigits mins
    let s := natOfDigits ss
    if 1 ≤ mo ∧ mo ≤ 12 ∧ 1 ≤ d ∧ d ≤ daysInMonth y mo ∧ h ≤ 23 ∧ mi ≤ 59 ∧ s ≤ 59 then
      some ⟨y, mo, d, h, mi, s, 0⟩
    else none
  else none

/-- ECMAScript parsing of a date-time string `YYYY-MM-DDTHH:mm[:ss]`
(without timezone designator), which is also what date-fns `parseISO`
accepts for these shapes; `new Date(string)` and `parseISO(string)` agree
here.  A string outside this grammar is modelled as an invalid date
(`none`); the record timestamps of this repository are produced by
`Date.toISOString`/date-fns `format`, which emit exactly this shape. -/
def jsParseDate (str : String) : Option DateTime :=
  match jsSplit str 'T' with
  | [ds, ts] =>
    match jsSplit ds '-', jsSplit ts ':' with
    | [ys, ms, dds], [hs, mins] => mkDateTime ys ms dds hs mins "00"
    | [ys, ms, dds], [hs, mins, ss] => mkDateTime ys ms dds hs mins ss
    | _, _ => none
  | _ => none

/-- The fixed 12-entry month table of `parseCustomTimestamp`
(RawBatteryChart.tsx). -/
def monthMap (s : String) : Option String :=
  match s with
  | "Jan" => some "01"
  | "Feb" => some "02"
  | "Mar" => some "03"
  | "Apr" => some "04"
  | "May" => some "05"
  | "Jun" => some "06"
  | "Jul" => some "07"
  | "Aug" => some "08"
  | "Sep" => some "09"
  | "Oct" => some "10"
  | "Nov" => some "11"
  | "Dec" => some "12"
  | _ => none

/-- JS `String.prototype.padStart(2, "0")`. -/
def padStart2 (s : String) : String :=
  String.mk (List.replicate (2 - s.data.length) '0') ++ s

/-- `parseCustomTimestamp` of RawBatteryChart.tsx.  The source splits the
string on spaces; with exactly six tokens it rebuilds an ISO string from
the month table, the zero-padded day, the time token and the year token
(the fifth token, index 4, is skipped) and hands it to `new Date`, which
never throws but may produce an invalid date (`none` here, e.g. when the
month abbreviation is unknown and the rebuilt string contains
"undefined").  With any other token count it throws, catches its own
error, logs it and falls back to the current date, modelled by the `now`
argument (`some now`). -/
def parseCustomTimestamp (now : DateTime) (timestamp : String) : Option DateTime :=
  let parts := jsSplit timestamp ' '
  if parts.length = 6 then
    match monthMap (parts.getD 1 "") with
    | none => none
    | some mo =>
      jsParseDate (parts.getD 5 "" ++ "-" ++ mo ++ "-"
        ++ padStart2 (parts.getD 2 "") ++ "T" ++ parts.getD 3 "")
  else
    some now

/-- The `BatteryData` record of src/types (time, soc, socPredicted);
the numeric payload is never computed on by the view pipeline, so JS
numbers are carried as `Int`. -/
structure BatteryData where
  time : String
  soc : Option Int
  socPredicted : Option Int
deriving DecidableEq

/-- A `BatteryData` record augmented with the derived `displayTime`
label, the output shape of the chart pipelines. -/
structure BatteryDisplay where
  time : String
  soc : Option Int
  socPredicted : Option Int
  displayTime : String
deriving DecidableEq

/-- The `RawBatteryData` record used by RawBatteryChart (time, packSOC,
packVoltage); numeric payload carried as `Int` as above. -/
structure RawBatteryData where
  time : String
  packSOC : Int
  packVoltage : Int
deriving DecidableEq

/-- A `RawBatteryData` record augmented with `displayTime`. -/
structure RawBatteryDisplay where
  time : String
  packSOC : Int
  packVoltage : Int
  displayTime : String
deriving DecidableEq

/-- The react-day-picker `DateRange`: a selected start date and an
optional end date (the source's fields `from`/`to`; `from` is renamed
since it is a Lean keyword). -/
structure DateRange where
  fromDate : DateTime
  toDate : Option DateTime
deriving DecidableEq

/-- The RawBatteryChart `timeRange` state: two `HH:mm` strings from
`<input type="time">` controls (the source's fields `start`/`end`; `end`
is renamed `stop` since it is a Lean keyword). -/
structure TimeRange where
  start : String
  stop : String
deriving DecidableEq

/-- Two-digit zero padding, as date-fns format tokens HH, mm and dd do. -/
def pad2 (n : Nat) : String :=
  if n < 10 then "0" ++ toString n else toString n

/-- date-fns `format(d, "HH:mm")` for a valid date. -/
def fmtHM (d : DateTime) : String := pad2 d.hour ++ ":" ++ pad2 d.minute

/-- date-fns `format(d, "dd")` (zero-padded day of month). -/
def fmtDD (d : DateTime) : String := pad2 d.day

/-- English three-letter month abbreviation, date-fns default locale. -/
def monthAbbrev (m : Nat) : String :=
  match m with
  | 1 => "Jan"
  | 2 => "Feb"
  | 3 => "Mar"
  | 4 => "Apr"
  | 5 => "May"
  | 6 => "Jun"
  | 7 => "Jul"
  | 8 => "Aug"
  | 9 => "Sep"
  | 10 => "Oct"
  | 11 => "Nov"
  | 12 => "Dec"
  | _ => ""

/-- date-fns `format(d, "MMM")` for a valid date. -/
def fmtMMM (d : DateTime) : String := monthAbbrev d.month

/-- The date-interval filter stage of the first BatteryChart variant
(BatteryChart.tsx, `filteredData`): with no selected range the data
passes through; otherwise keep the records whose `parseISO` instant lies
within [startOfDay from, endOfDay (to or from)].  An unparseable
timestamp compares as NaN inside `isWithinInterval` and is excluded. -/
def batteryDateFilter (range : Option DateRange) (data : List BatteryData) :
    List BatteryData :=
  match range with
  | none => data
  | some r =>
    let f := startOfDay r.fromDate
    let t := match r.toDate with
      | some d => endOfDay d
      | none => endOfDay r.fromDate
    data.filter fun item =>
      match jsParseDate item.time with
      | none => false
      | some d => isWithinIntervalB d f t

/-- The labelling map of the first BatteryChart variant
(BatteryChart.tsx, `filteredData`, the `processedData.map` line): the
spread of the record plus `displayTime: format(parseISO(item.time),
"HH:mm")` with no try/catch around it.  date-fns `format` throws a
RangeError on an invalid date, and nothing catches it, so an unparseable
timestamp aborts the whole computation; the thrown case is `none`. -/
def batteryLabel (item : BatteryData) : Option BatteryDisplay :=
  match jsParseDate item.time with
  | none => none
  | some d => some ⟨item.time, item.soc, item.socPredicted, fmtHM d⟩

/-- JS `Array.prototype.map` with a callback that can throw: the first
record whose label throws aborts the whole map with the exception
(`none`). -/
def labelAll : List BatteryData → Option (List BatteryDisplay)
  | [] => some []
  | a :: l =>
    match batteryLabel a, labelAll l with
    | some b, some bs => some (b :: bs)
    | _, _ => none

/-- `filteredData` of the first BatteryChart variant: empty guard, date
filter, then the unguarded labelling map; `none` is the uncaught
RangeError that crashes the render. -/
def batteryFilteredData (range : Option DateRange) (data : List BatteryData) :
    Option (List BatteryDisplay) :=
  if data.isEmpty then some []
  else labelAll (batteryDateFilter range data)

/-- The date-interval filter stage of the second BatteryChart variant
(BatteryChart.tsx, `filteredData` with `new Date` + `isValid`): an
invalid parse fails the `isValid` check and the record is dropped. -/
def battery2Filter (range : Option DateRange) (data : List BatteryData) :
    List BatteryData :=
  match range with
  | none => data
  | some r =>
    let f := startOfDay r.fromDate
    let t := match r.toDate with
      | some d => endOfDay d
      | none => endOfDay r.fromDate
    data.filter fun item =>
      match jsParseDate item.time with
      | none => false
      | some d => isWithinIntervalB d f t

/-- `daysDifference` of the second BatteryChart variant:
`differenceInDays(endOfDay(to ?? from), startOfDay(from))`. -/
def battery2DaysDiff (r : DateRange) : Int :=
  let f := startOfDay r.fromDate
  let t := match r.toDate with
    | some d => endOfDay d
    | none => endOfDay r.fromDate
  differenceInDays t f

/-- The label-granularity selection of the second BatteryChart variant:
0 days and 1 to 7 days format HH:mm, up to 31 days format dd, otherwise
format MMM. -/
def chooseFormat (daysDifference : Int) (d : DateTime) : String :=
  if daysDifference = 0 then fmtHM d
  else if daysDifference ≤ 7 then fmtHM d
  else if daysDifference ≤ 31 then fmtDD d
  else fmtMMM d

/-- The labelling map of the second BatteryChart variant when an interval
is active: an invalid parse throws, is caught, and the label falls back
to the raw timestamp string; otherwise the granularity-chosen format. -/
def battery2LabelWith (daysDifference : Int) (item : BatteryData) : BatteryDisplay :=
  match jsParseDate item.time with
  | none => ⟨item.time, item.soc, item.socPredicted, item.time⟩
  | some d => ⟨item.time, item.soc, item.socPredicted, chooseFormat daysDifference d⟩

/-- The labelling map of the second BatteryChart variant when no interval
is active: raw-string fallback on an invalid parse, else HH:mm when the
raw string contains the literal marker T, else the raw string. -/
def battery2LabelNoInterval (item : BatteryData) : BatteryDisplay :=
  match jsParseDate item.time with
  | none => ⟨item.time, item.soc, item.socPredicted, item.time⟩
  | some d =>
    ⟨item.time, item.soc, item.socPredicted,
      if item.time.data.any (fun c => c = 'T') then fmtHM d else item.time⟩

/-- `filteredData` of the second BatteryChart variant: empty guard, date
filter, then the interval-dependent labelling map. -/
def battery2FilteredData (range : Option DateRange) (data : List BatteryData) :
    List BatteryDisplay :=
  if data.isEmpty then []
  else
    match range with
    | none => data.map battery2LabelNoInterval
    | some r => (battery2Filter (some r) data).map (battery2LabelWith (battery2DaysDiff r))

/-- The date-interval filter stage of RawBatteryChart (`filteredData`,
first block): like the BatteryChart date filter but parsing with
`parseCustomTimestamp`, whose current-date fallback needs `now`. -/
def rawDateFilter (now : DateTime) (range : Option DateRange)
    (data : List RawBatteryData) : List RawBatteryData :=
  match range with
  | none => data
  | some r =>
    let f := startOfDay r.fromDate
    let t := match r.toDate with
      | some d => endOfDay d
      | none => endOfDay r.fromDate
    data.filter fun item =>
      match parseCustomTimestamp now item.time with
      | none => false
      | some d => isWithinIntervalB d f t

/-- `"HH:mm".split(":").map(Number)` for the time-of-day bound strings.
An `<input type="time">` value is either empty (checked before this) or a
valid `HH:mm`; anything else would give NaN components, which make every
`isWithinInterval` call throw and the filter drop every record, the same
outcome as the `none` branch below. -/
def parseHM (s : String) : Option (Nat × Nat) :=
  match jsSplit s ':' with
  | [hs, ms] =>
    if digitsLen hs 2 ∧ digitsLen ms 2 ∧ natOfDigits hs ≤ 23 ∧ natOfDigits ms ≤ 59 then
      some (natOfDigits hs, natOfDigits ms)
    else none
  | _ => none

/-- The time-of-day filter stage of RawBatteryChart (`filteredData`,
second block).  Applied whenever both bound strings are non-empty (they
default to "00:00" and "23:59").  For each record the source builds
`itemTime = setHours(setMinutes(itemDate, 0), 0)` — the record's own day
at 00:00 with its hour and minute zeroed out — and the two bound instants
on the record's own day, then keeps the record when `itemTime` lies
within the bounds; seconds of the parsed instant are preserved by
`setHours`/`setMinutes` in all three values. -/
def rawTimeFilter (now : DateTime) (tr : TimeRange)
    (data : List RawBatteryData) : List RawBatteryData :=
  if tr.start = "" ∨ tr.stop = "" then data
  else
    match parseHM tr.start, parseHM tr.stop with
    | some (sh, sm), some (eh, em) =>
      data.filter fun item =>
        match parseCustomTimestamp now item.time with
        | none => false
        | some d =>
          let itemTime := { d with hour := 0, minute := 0 }
          let startTime := { d with hour := sh, minute := sm }
          let endTime := { d with hour := eh, minute := em }
          isWithinIntervalB itemTime startTime endTime
    | _, _ => data.filter fun _ => false

/-- The labelling map of RawBatteryChart: format HH:mm of the parsed
instant; `format` throws on an invalid date, caught with the raw string
as fallback. -/
def rawLabel (now : DateTime) (item : RawBatteryData) : RawBatteryDisplay :=
  match parseCustomTimestamp now item.time with
  | none => ⟨item.time, item.packSOC, item.packVoltage, item.time⟩
  | some d => ⟨item.time, item.packSOC, item.packVoltage, fmtHM d⟩

/-- `filteredData` of RawBatteryChart: empty guard, date filter,
time-of-day filter, labelling map. -/
def rawFilteredData (now : DateTime) (range : Option DateRange) (tr : TimeRange)
    (data : List RawBatteryData) : List RawBatteryDisplay :=
  if data.isEmpty then []
  else (rawTimeFilter now tr (rawDateFilter now range data)).map (rawLabel now)

/-- `maxScrollIndex` of both BatteryChart variants:
`Math.max(0, filteredData.length - zoomLevel)`. -/
def maxScrollIndex (filteredLength zoomLevel : Int) : Int :=
  max 0 (filteredLength - zoomLevel)

/-- `clampedScrollIndex` of both BatteryChart variants:
`Math.min(scrollIndex, maxScrollIndex)`. -/
def clampedScrollIndex (scrollIndex maxIdx : Int) : Int :=
  min scrollIndex maxIdx

/-- JS `Array.prototype.slice(s, e)` for the nonnegative bounds the
charts pass (`slice(clamped, clamped + zoomLevel)`). -/
def jsSlice {α : Type} (l : List α) (s e : Int) : List α :=
  (l.take e.toNat).drop s.toNat

/-- The zoom-in handlers of both BatteryChart variants:
`Math.max(10, prev - step)` with step 30 (buttons, first variant) or 10
(wheel and buttons, second variant). -/
def zoomIn (prev step : Int) : Int := max 10 (prev - step)

/-- The zoom-out handlers of both BatteryChart variants:
`Math.min(data.length, prev + step)` — clamped to the raw input length,
with step 30 or 10 as above. -/
def zoomOut (dataLength prev step : Int) : Int := min dataLength (prev + step)


/-! ## Shared structural lemmas -/

/-- The date filter of RawBatteryChart is a sublist of its input. -/
theorem rawDateFilter_sublist (now : DateTime) (range : Option DateRange)
    (data : List RawBatteryData) : (rawDateFilter now range data).Sublist data := by
  cases range with
  | none => exact List.Sublist.refl data
  | some r => exact List.filter_sublist data

/-- The time-of-day filter of RawBatteryChart is a sublist of its input. -/
theorem rawTimeFilter_sublist (now : DateTime) (tr : TimeRange)
    (data : List RawBatteryData) : (rawTimeFilter now tr data).Sublist data := by
  unfold rawTimeFilter
  split
  · exact List.Sublist.refl data
  · split <;> exact List.filter_sublist data

/-- The date filter of the first BatteryChart variant is a sublist of its
input. -/
theorem batteryDateFilter_sublist (range : Option DateRange)
    (data : List BatteryData) : (batteryDateFilter range data).Sublist data := by
  cases range with
  | none => exact List.Sublist.refl data
  | some r => exact List.filter_sublist data

/-- The date filter of the second BatteryChart variant is a sublist of its
input. -/
theorem battery2Filter_sublist (range : Option DateRange)
    (data : List BatteryData) : (battery2Filter range data).Sublist data := by
  cases range with
  | none => exact List.Sublist.refl data
  | some r => exact List.filter_sublist data

/-- The empty-input guard of `rawFilteredData` is redundant: the pipeline
always equals filtering followed by the labelling map. -/
theorem rawFilteredData_eq_map (now : DateTime) (range : Option DateRange)
    (tr : TimeRange) (data : List RawBatteryData) :
    rawFilteredData now range tr data
      = (rawTimeFilter now tr (rawDateFilter now range data)).map (rawLabel now) := by
  cases data with
  | nil =>
    have h1 : rawDateFilter now range [] = [] :=
      List.sublist_nil.mp (rawDateFilter_sublist now range [])
    have h2 : rawTimeFilter now tr (rawDateFilter now range []) = [] := by
      rw [h1]
      exact List.sublist_nil.mp (rawTimeFilter_sublist now tr [])
    have h0 : rawFilteredData now range tr [] = [] := rfl
    rw [h0, h2]
    rfl
  | cons a l => rfl

/-- The empty-input guard of `battery2FilteredData` is redundant. -/
theorem battery2FilteredData_eq (range : Option DateRange) (data : List BatteryData) :
    battery2FilteredData range data =
      match range with
      | none => data.map battery2LabelNoInterval
      | some r => (battery2Filter (some r) data).map (battery2LabelWith (battery2DaysDiff r)) := by
  cases data with
  | nil => cases range <;> rfl
  | cons a l => rfl

/-- A record kept by the first BatteryChart date filter under an active
range has a parseable timestamp. -/
theorem batteryDateFilter_parse_isSome (r : DateRange) (data : List BatteryData)
    (item : BatteryData) (h : item ∈ batteryDateFilter (some r) data) :
    (jsParseDate item.time).isSome := by
  have h2 := (List.mem_filter.mp h).2
  cases hp : jsParseDate item.time with
  | none =>
    rw [hp] at h2
    simp at h2
  | some d => rfl

/-! ## Claim theorems -/

/-- Claim C1: evaluation of the RawBatteryChart time-of-day filter at the
bound 10:00 to 12:00 on a record whose own instant is 11:00 of its day.
The record's hour and minute lie inside the bound, yet the pipeline drops
it: the source builds `itemTime` by zeroing the record's minutes and
hours, so it compares midnight of the record's day, not the record's own
time of day, against the bound. -/
theorem C1_time_filter_evaluation :
    parseCustomTimestamp ⟨2024, 6, 1, 12, 0, 0, 0⟩ "Wed Jan 03 11:00:00 UTC 2024"
      = some ⟨2024, 1, 3, 11, 0, 0, 0⟩ ∧
    rawFilteredData ⟨2024, 6, 1, 12, 0, 0, 0⟩ none ⟨"10:00", "12:00"⟩
      [⟨"Wed Jan 03 11:00:00 UTC 2024", 50, 48⟩] = [] := by decide

/-- Claim C2 (counterexample): the five-token string
"Wed Jan 03 14:05:00 2024" does not take the Format-B path (the source
requires exactly six space-separated tokens); it falls to the current-date
fallback and so does not parse to the instant of "2024-01-03T14:05:00". -/
theorem C2_five_token_counterexample :
    parseCustomTimestamp ⟨2030, 5, 5, 1, 2, 3, 4⟩ "Wed Jan 03 14:05:00 2024"
      = some ⟨2030, 5, 5, 1, 2, 3, 4⟩ ∧
    jsParseDate "2024-01-03T14:05:00" = some ⟨2024, 1, 3, 14, 5, 0, 0⟩ ∧
    parseCustomTimestamp ⟨2030, 5, 5, 1, 2, 3, 4⟩ "Wed Jan 03 14:05:00 2024"
      ≠ jsParseDate "2024-01-03T14:05:00" := by decide

/-- Claim C2 (amended): Format B requires six tokens, with the ignored
fifth token (such as a timezone token): "Wed Jan 03 14:05:00 UTC 2024"
parses through the 12-entry month table and ISO reconstruction to the
same instant as "2024-01-03T14:05:00", for every current instant `now`;
the five-token spelling instead returns the current-date fallback. -/
theorem C2_format_b_amended :
    ∀ now : DateTime,
      parseCustomTimestamp now "Wed Jan 03 14:05:00 UTC 2024"
        = jsParseDate "2024-01-03T14:05:00" ∧
      jsParseDate "2024-01-03T14:05:00" = some ⟨2024, 1, 3, 14, 5, 0, 0⟩ ∧
      parseCustomTimestamp now "Wed Jan 03 14:05:00 2024" = some now :=
  fun _ => ⟨rfl, rfl, rfl⟩

/-- Claim C3 (counterexample): the string "not-a-date" matches neither
supported format, yet the parse does not fail past the component
boundary and the record is neither dropped from the filtered view nor
labelled with its raw string: the parser falls back to the current
instant (here 09:30), the record passes the default time-of-day filter
and is displayed with the current time as its label. -/
theorem C3_fallback_keeps_record_counterexample :
    rawFilteredData ⟨2024, 6, 1, 9, 30, 0, 0⟩ none ⟨"00:00", "23:59"⟩ [⟨"not-a-date", 1, 2⟩]
      = [⟨"not-a-date", 1, 2, "09:30"⟩] ∧
    (jsSplit "not-a-date" ' ').length ≠ 6 ∧
    "09:30" ≠ "not-a-date" := by decide

/-- Claim C3 (amended): for every input string that does not split into
exactly six space-separated tokens, the parser throws internally, logs
the error (observable) and recovers by returning the current instant;
the record is therefore retained with a label derived from the current
time rather than dropped or labelled with its raw string, and processing
of the remaining records continues. -/
theorem C3_parse_fallback_amended :
    ∀ (now : DateTime) (s : String) (p v : Int),
      (jsSplit s ' ').length ≠ 6 →
      parseCustomTimestamp now s = some now ∧
      rawLabel now ⟨s, p, v⟩ = ⟨s, p, v, fmtHM now⟩ := by
  intro now s p v h
  have h1 : parseCustomTimestamp now s = some now := by
    simp only [parseCustomTimestamp]
    rw [if_neg h]
  refine ⟨h1, ?_⟩
  simp only [rawLabel, h1]

/-- Claim C3 witness: the fallback theorem applied at "not-a-date". -/
theorem C3_parse_fallback_witness :
    (jsSplit "not-a-date" ' ').length ≠ 6 ∧
    parseCustomTimestamp ⟨2025, 2, 3, 4, 5, 6, 7⟩ "not-a-date"
      = some ⟨2025, 2, 3, 4, 5, 6, 7⟩ :=
  ⟨by decide,
   (C3_parse_fallback_amended ⟨2025, 2, 3, 4, 5, 6, 7⟩ "not-a-date" 3 4 (by decide)).1⟩

/-- Claim C4: with no selected date interval both chart date filters are
the identity on their input (no date filtering occurs), and with the
single selected date 2024-01-01 the interval end defaults to the end of
that day, so of two records at 2024-01-01T08:00 and 2024-01-02T08:00
exactly the first is kept. -/
theorem C4_no_interval_identity_single_date :
    ∀ (now : DateTime) (bdata : List BatteryData) (rdata : List RawBatteryData),
      batteryDateFilter none bdata = bdata ∧
      rawDateFilter now none rdata = rdata ∧
      batteryDateFilter (some ⟨⟨2024, 1, 1, 0, 0, 0, 0⟩, none⟩)
        [⟨"2024-01-01T08:00:00", some 80, some 81⟩, ⟨"2024-01-02T08:00:00", some 70, some 71⟩]
        = [⟨"2024-01-01T08:00:00", some 80, some 81⟩] :=
  fun _ _ _ => ⟨rfl, rfl, by decide⟩

/-- Claim C5 (counterexample): a negative offset is not clamped to zero:
at offset -1, size 30, filteredLength 100 the code's
`min(offset, maxOffset)` yields -1, violating `0 ≤ clampedOffset`. -/
theorem C5_negative_offset_counterexample :
    clampedScrollIndex (-1) (maxScrollIndex 100 30) = -1 ∧
    ¬(0 ≤ clampedScrollIndex (-1) (maxScrollIndex 100 30)) ∧
    clampedScrollIndex (-1) (maxScrollIndex 100 30) ≠ 0 := by decide

/-- Claim C5 (amended): for every nonnegative offset the window invariant
holds after the derivation step: `0 ≤ clampedOffset ≤ maxOffset`,
`maxOffset = max(0, filteredLength - size)` and
`clampedOffset = min(offset, maxOffset)`; a negative offset is passed
through `min` un-clamped (the range input guarantees nonnegative
offsets).  In particular `filteredLength = 100, size = 30, offset = 90`
gives `maxOffset = 70`, `clampedOffset = 70` and a slice covering the
index interval from 70 up to 100. -/
theorem C5_window_invariant_amended :
    ∀ offset size len : Int, 0 ≤ offset →
      (0 ≤ clampedScrollIndex offset (maxScrollIndex len size) ∧
       clampedScrollIndex offset (maxScrollIndex len size) ≤ maxScrollIndex len size ∧
       maxScrollIndex len size = max 0 (len - size) ∧
       clampedScrollIndex offset (maxScrollIndex len size)
         = min offset (maxScrollIndex len size)) ∧
      (maxScrollIndex 100 30 = 70 ∧
       clampedScrollIndex 90 (maxScrollIndex 100 30) = 70 ∧
       jsSlice (List.range 100) (clampedScrollIndex 90 (maxScrollIndex 100 30))
         (clampedScrollIndex 90 (maxScrollIndex 100 30) + 30) = (List.range 100).drop 70) := by
  intro offset size len h
  refine ⟨⟨?_, ?_, rfl, rfl⟩, by decide, by decide, by decide⟩
  · exact le_min h (le_max_left 0 _)
  · exact min_le_right _ _

/-- Claim C5 witness: the window invariant at offset 90, size 30,
length 100. -/
theorem C5_window_invariant_witness :
    (0 ≤ (90 : Int)) ∧
    clampedScrollIndex 90 (maxScrollIndex 100 30) ≤ maxScrollIndex 100 30 :=
  ⟨by decide, ((C5_window_invariant_amended 90 30 100 (by decide)).1).2.1⟩

/-- Claim C6: with an active interval the second BatteryChart variant
selects label granularity from the whole-day span between interval start
and end: a span of 0 or of 1 to 7 days gives hour:minute labels, 8 to 31
days gives zero-padded day-of-month labels, more than 31 days gives
abbreviated month names.  In particular the selection Jan 1 to Jan 4 of
2024 has span 3 and labels a record hour:minute, and the selection Jan 1
to Feb 10 of 2024 has span 40 and labels it with the month abbreviation. -/
theorem C6_label_granularity :
    ∀ (dt : DateTime) (d : Int),
      ((d = 0 ∨ (1 ≤ d ∧ d ≤ 7)) → chooseFormat d dt = fmtHM dt) ∧
      ((8 ≤ d ∧ d ≤ 31) → chooseFormat d dt = fmtDD dt) ∧
      (31 < d → chooseFormat d dt = fmtMMM dt) ∧
      battery2DaysDiff ⟨⟨2024, 1, 1, 0, 0, 0, 0⟩, some ⟨2024, 1, 4, 0, 0, 0, 0⟩⟩ = 3 ∧
      battery2FilteredData (some ⟨⟨2024, 1, 1, 0, 0, 0, 0⟩, some ⟨2024, 1, 4, 0, 0, 0, 0⟩⟩)
        [⟨"2024-01-02T13:45:00", some 55, some 56⟩]
        = [⟨"2024-01-02T13:45:00", some 55, some 56, "13:45"⟩] ∧
      battery2DaysDiff ⟨⟨2024, 1, 1, 0, 0, 0, 0⟩, some ⟨2024, 2, 10, 0, 0, 0, 0⟩⟩ = 40 ∧
      battery2FilteredData (some ⟨⟨2024, 1, 1, 0, 0, 0, 0⟩, some ⟨2024, 2, 10, 0, 0, 0, 0⟩⟩)
        [⟨"2024-01-02T13:45:00", some 55, some 56⟩]
        = [⟨"2024-01-02T13:45:00", some 55, some 56, "Jan"⟩] := by
  intro dt d
  refine ⟨?_, ?_, ?_, by decide, by decide, by decide, by decide⟩
  · rintro (rfl | ⟨h1, h2⟩)
    · rfl
    · unfold chooseFormat
      rw [if_neg (by omega), if_pos (by omega)]
  · rintro ⟨h1, h2⟩
    unfold chooseFormat
    rw [if_neg (by omega), if_neg (by omega), if_pos (by omega)]
  · intro h
    unfold chooseFormat
    rw [if_neg (by omega), if_neg (by omega), if_neg (by omega)]

/-- Claim C6 witness: the granularity selection at a 20-day span. -/
theorem C6_label_granularity_witness :
    (8 ≤ (20 : Int) ∧ (20 : Int) ≤ 31) ∧
    chooseFormat 20 ⟨2024, 1, 2, 13, 45, 0, 0⟩ = fmtDD ⟨2024, 1, 2, 13, 45, 0, 0⟩ :=
  ⟨by decide, (C6_label_granularity ⟨2024, 1, 2, 13, 45, 0, 0⟩ 20).2.1 (by decide)⟩

/-- Claim C7 (counterexample): the unparseable timestamp "not-a-date"
refutes the claim on both cited label maps.  In the first BatteryChart
variant the unfiltered view does not label the record with its raw
string: the unguarded `format(parseISO(...))` throws, so the whole pass
crashes (`none`) — the record gets no `displayTime` at all.  In
RawBatteryChart the parse falls back to the current instant (here
22:15) and the record is shown with the formatted current time, not the
raw string. -/
theorem C7_parse_failure_counterexample :
    jsParseDate "not-a-date" = none ∧
    batteryFilteredData none [⟨"not-a-date", some 1, some 2⟩] = none ∧
    rawFilteredData ⟨2024, 3, 10, 22, 15, 0, 0⟩ none ⟨"00:00", "23:59"⟩ [⟨"not-a-date", 7, 9⟩]
      = [⟨"not-a-date", 7, 9, "22:15"⟩] ∧
    "22:15" ≠ "not-a-date" := by decide

/-- Claim C7 (amended): for every record whose timestamp fails to parse,
in the first BatteryChart variant (the cited label map) the record is
excluded from every date-filtered view — which is the only reason those
views survive it — but the unfiltered view crashes on it: the unguarded
`format(parseISO(...))` throws, so the record receives no `displayTime`
at all, raw string included; and in RawBatteryChart a timestamp that
does not split into six tokens is assigned the current instant, so its
`displayTime` is the formatted current time rather than the raw
string. -/
theorem C7_parse_failure_amended :
    ∀ (item : BatteryData) (range : DateRange) (data : List BatteryData)
      (now : DateTime) (rit : RawBatteryData),
      jsParseDate item.time = none →
      (jsSplit rit.time ' ').length ≠ 6 →
      item ∉ batteryDateFilter (some range) data ∧
      batteryFilteredData none (item :: data) = none ∧
      rawLabel now rit = ⟨rit.time, rit.packSOC, rit.packVoltage, fmtHM now⟩ := by
  intro item range data now rit h h6
  refine ⟨?_, ?_, ?_⟩
  · intro hmem
    have hs := batteryDateFilter_parse_isSome range data item hmem
    rw [h] at hs
    simp at hs
  · have hl : batteryLabel item = none := by
      unfold batteryLabel
      rw [h]
    show labelAll (item :: data) = none
    unfold labelAll
    rw [hl]
  · have hp : parseCustomTimestamp now rit.time = some now := by
      simp only [parseCustomTimestamp]
      rw [if_neg h6]
    simp only [rawLabel, hp]

/-- Claim C7 witness: the amended theorem applied to a "not-a-date"
record (and a non-six-token raw record) at concrete inputs. -/
theorem C7_parse_failure_witness :
    (jsParseDate "not-a-date" = none ∧ (jsSplit "nope" ' ').length ≠ 6) ∧
    batteryFilteredData none [⟨"not-a-date", some 1, none⟩] = none :=
  ⟨⟨by decide, by decide⟩,
   (C7_parse_failure_amended ⟨"not-a-date", some 1, none⟩ ⟨⟨2024, 1, 1, 0, 0, 0, 0⟩, none⟩ []
     ⟨2024, 1, 1, 0, 0, 0, 0⟩ ⟨"nope", 0, 0⟩ (by decide) (by decide)).2.1⟩

/-- Claim C8 (counterexample): the zoom floor can exceed the filtered
length: with five records and no active filter the filtered sequence has
length 5, yet a zoom-in step from size 5 yields `max(10, 5 - 30) = 10`,
which is greater than the filtered length. -/
theorem C8_zoom_floor_counterexample :
    (battery2Filter none
      [⟨"2024-01-01T00:00:00", some 1, some 1⟩, ⟨"2024-01-02T00:00:00", some 2, some 2⟩,
       ⟨"2024-01-03T00:00:00", some 3, some 3⟩, ⟨"2024-01-04T00:00:00", some 4, some 4⟩,
       ⟨"2024-01-05T00:00:00", some 5, some 5⟩]).length = 5 ∧
    zoomIn 5 30 = 10 ∧
    ¬(zoomIn 5 30 ≤ 5) := by decide

/-- Claim C8 (amended): the zoom handlers clamp against the raw data
length, not the filtered length: when the raw length is at least 10 and
the current size lies in `[10, dataLength]`, every zoom-in step
`max(10, prev - step)` and zoom-out step `min(dataLength, prev + step)`
keeps the size inside `[10, dataLength]` and strictly positive (never 0);
the size may exceed the filtered length when filters shrink it below the
raw length or when fewer than 10 records exist. -/
theorem C8_zoom_bounds_amended :
    ∀ dataLen prev step : Int, 0 ≤ step → 10 ≤ dataLen → 10 ≤ prev → prev ≤ dataLen →
      10 ≤ zoomIn prev step ∧ zoomIn prev step ≤ dataLen ∧
      10 ≤ zoomOut dataLen prev step ∧ zoomOut dataLen prev step ≤ dataLen ∧
      0 < zoomIn prev step ∧ 0 < zoomOut dataLen prev step := by
  intro dataLen prev step hs hd hp hpd
  unfold zoomIn zoomOut
  refine ⟨le_max_left _ _, ?_, ?_, min_le_left _ _, ?_, ?_⟩
  · exact max_le hd (by omega)
  · exact le_min hd (by omega)
  · exact lt_of_lt_of_le (by norm_num) (le_max_left _ _)
  · exact lt_of_lt_of_le (by norm_num) (le_min hd (by omega))

/-- Claim C8 witness: the zoom bounds at raw length 100, size 50,
step 30. -/
theorem C8_zoom_bounds_witness :
    (0 ≤ (30 : Int) ∧ 10 ≤ (100 : Int) ∧ 10 ≤ (50 : Int) ∧ (50 : Int) ≤ 100) ∧
    10 ≤ zoomIn 50 30 :=
  ⟨by decide,
   (C8_zoom_bounds_amended 100 50 30 (by decide) (by decide) (by decide) (by decide)).1⟩

/-- Claim C9: every filter stage of the charts returns a sublist of its
input — a subsequence preserving relative order, with no kept record
dropped, duplicated or reordered — for every filter setting; the
composed RawBatteryChart date and time-of-day filters likewise. -/
theorem C9_filter_order_preserving :
    ∀ (now : DateTime) (range brange : Option DateRange) (tr : TimeRange)
      (rdata : List RawBatteryData) (bdata : List BatteryData),
      List.Sublist (rawTimeFilter now tr (rawDateFilter now range rdata)) rdata ∧
      List.Sublist (batteryDateFilter brange bdata) bdata ∧
      List.Sublist (battery2Filter brange bdata) bdata :=
  fun now range brange tr rdata bdata =>
    ⟨(rawTimeFilter_sublist now tr (rawDateFilter now range rdata)).trans
        (rawDateFilter_sublist now range rdata),
     batteryDateFilter_sublist brange bdata,
     battery2Filter_sublist brange bdata⟩

/-- Claim C10: every record in a filter-and-label pipeline output comes
from an input record whose payload fields (time and the metric values)
are carried over unchanged; the only field the pass adds is
`displayTime`. -/
theorem C10_fields_preserved :
    ∀ (now : DateTime) (range : Option DateRange) (tr : TimeRange)
      (rdata : List RawBatteryData) (brange : Option DateRange) (bdata : List BatteryData),
      (∀ o ∈ rawFilteredData now range tr rdata,
        ∃ i ∈ rdata, i.time = o.time ∧ i.packSOC = o.packSOC ∧ i.packVoltage = o.packVoltage) ∧
      (∀ o ∈ battery2FilteredData brange bdata,
        ∃ i ∈ bdata, i.time = o.time ∧ i.soc = o.soc ∧ i.socPredicted = o.socPredicted) := by
  intro now range tr rdata brange bdata
  constructor
  · intro o ho
    rw [rawFilteredData_eq_map] at ho
    rcases List.mem_map.mp ho with ⟨a, ha, rfl⟩
    have hmem : a ∈ rdata :=
      ((rawTimeFilter_sublist now tr (rawDateFilter now range rdata)).trans
        (rawDateFilter_sublist now range rdata)).subset ha
    refine ⟨a, hmem, ?_⟩
    cases hj : parseCustomTimestamp now a.time <;> simp [rawLabel, hj]
  · intro o ho
    rw [battery2FilteredData_eq] at ho
    cases brange with
    | none =>
      rcases List.mem_map.mp ho with ⟨a, ha, rfl⟩
      refine ⟨a, ha, ?_⟩
      cases hj : jsParseDate a.time <;> simp [battery2LabelNoInterval, hj]
    | some r =>
      rcases List.mem_map.mp ho with ⟨a, ha, rfl⟩
      have hmem : a ∈ bdata := (battery2Filter_sublist (some r) bdata).subset ha
      refine ⟨a, hmem, ?_⟩
      cases hj : jsParseDate a.time <;> simp [battery2LabelWith, hj]

/-- Claim C10 witness: field preservation applied to a concrete
single-record pipeline run. -/
theorem C10_fields_preserved_witness :
    ((⟨"2024-01-05T06:07:00", some 9, some 8, "06:07"⟩ : BatteryDisplay)
        ∈ battery2FilteredData none [⟨"2024-01-05T06:07:00", some 9, some 8⟩]) ∧
    (∃ i ∈ ([⟨"2024-01-05T06:07:00", some 9, some 8⟩] : List BatteryData),
      i.time = "2024-01-05T06:07:00" ∧ i.soc = some 9 ∧ i.socPredicted = some 8) := by
  refine ⟨by decide, ?_⟩
  exact (C10_fields_preserved ⟨2024, 1, 1, 0, 0, 0, 0⟩ none ⟨"", ""⟩ [] none
      [⟨"2024-01-05T06:07:00", some 9, some 8⟩]).2
      ⟨"2024-01-05T06:07:00", some 9, some 8, "06:07"⟩ (by decide)

end BatteryHub
